import Mathlib

/-!
Shallow embedding of the diecut lifecycle subsystem of the
calendar-mobile-backend repository (src/Models/diecut.js, src/utils/helpers.js
and the diecut controller), together with proofs about its operations.

SQL tables are modelled as lists of rows; SQL DATE values are abstract
naturals ordered chronologically; SQL NULL is Option.none; a statement's
effect is a pure function on the table state.  SYSDATE is passed in as an
explicit `now` argument.
-/

namespace DiecutModel

/-! ### Decimal strings

The JavaScript side converts the numeric MAX_SN column with `.toString()` and
parses it back with `parseInt(s, 10)`; Oracle's TO_NUMBER parses the serial
suffix.  Decimal rendering and parsing are modelled explicitly so that the
round trip can be proved. -/

/-- Worker for the decimal digit list, structural on a fuel bound (fuel
`n + 1` always suffices for `n`, mirroring the fuelled `Nat.toDigitsCore`
used by the runtime's own decimal printer). -/
def decDigitsCore : Nat → Nat → List Char
  | 0, _ => []
  | fuel + 1, n =>
    if n < 10 then [Nat.digitChar n]
    else decDigitsCore fuel (n / 10) ++ [Nat.digitChar (n % 10)]

/-- Decimal digit list (most significant first) of a natural number, using
the standard digit characters. -/
def decDigits (n : Nat) : List Char :=
  decDigitsCore (n + 1) n

/-- Decimal rendering of a natural number, the model of JavaScript
`String(n)` / `.toString()` on a nonnegative integer column. -/
def natToString (n : Nat) : String :=
  String.mk (decDigits n)

/-- Value of a digit-character list read left to right in base 10. -/
def decValFold (cs : List Char) : Nat :=
  cs.foldl (fun a c => a * 10 + (c.toNat - 48)) 0

/-- Parse of a nonempty all-digit string, the model of Oracle TO_NUMBER on a
nonnegative integer literal; none when the string is not such a literal. -/
def decToNat? (s : String) : Option Nat :=
  if !s.data.isEmpty && s.data.all Char.isDigit then some (decValFold s.data)
  else none

/-- Model of JavaScript `parseInt(s, 10)`: the longest leading digit run is
parsed; none models NaN. -/
def jsParseInt10 (s : String) : Option Nat :=
  decToNat? (String.mk (s.data.takeWhile Char.isDigit))

/-- Model of JavaScript `String.prototype.padStart(n, c)` (code points;
all strings involved here are ASCII). -/
def jsPadStart (s : String) (n : Nat) (c : Char) : String :=
  if n ≤ s.data.length then s
  else String.mk (List.replicate (n - s.data.length) c) ++ s

/-- JavaScript truthiness of an optional string (undefined, null and the
empty string are falsy). -/
def jsTruthy : Option String → Bool
  | none => false
  | some s => !s.data.isEmpty

/-- Character-based model of Oracle `SUBSTR(s, k + 1)` (drop the first `k`
characters). -/
def strDrop (s : String) (k : Nat) : String :=
  String.mk (s.data.drop k)

/-! ### Round-trip lemmas for the decimal model -/

theorem digitChar_isDigit {d : Nat} (h : d < 10) : (Nat.digitChar d).isDigit = true := by
  interval_cases d <;> decide

theorem digitChar_val {d : Nat} (h : d < 10) : (Nat.digitChar d).toNat - 48 = d := by
  interval_cases d <;> decide

theorem decDigitsCore_ne_nil {fuel n : Nat} (h : n < fuel) :
    decDigitsCore fuel n ≠ [] := by
  match fuel with
  | 0 => omega
  | fuel + 1 =>
    rw [decDigitsCore]
    split
    · simp
    · simp

theorem decDigits_ne_nil (n : Nat) : decDigits n ≠ [] :=
  decDigitsCore_ne_nil (Nat.lt_succ_self n)

theorem decDigitsCore_all_isDigit :
    ∀ fuel n : Nat, n < fuel → (decDigitsCore fuel n).all Char.isDigit = true := by
  intro fuel
  induction fuel with
  | zero => omega
  | succ fuel ih =>
    intro n h
    rw [decDigitsCore]
    split
    · next h10 => simp [digitChar_isDigit h10]
    · next h10 =>
      have hlt : n / 10 < n := Nat.div_lt_self (by omega) (by omega)
      have hd : n % 10 < 10 := Nat.mod_lt _ (by omega)
      simp only [List.all_append, Bool.and_eq_true]
      exact ⟨ih _ (by omega), by simp [digitChar_isDigit hd]⟩

theorem decDigits_all_isDigit (n : Nat) : (decDigits n).all Char.isDigit = true :=
  decDigitsCore_all_isDigit _ _ (Nat.lt_succ_self n)

theorem decValFold_append_digit (l : List Char) (c : Char) :
    decValFold (l ++ [c]) = decValFold l * 10 + (c.toNat - 48) := by
  simp [decValFold, List.foldl_append]

theorem decValFold_decDigitsCore :
    ∀ fuel n : Nat, n < fuel → decValFold (decDigitsCore fuel n) = n := by
  intro fuel
  induction fuel with
  | zero => omega
  | succ fuel ih =>
    intro n h
    rw [decDigitsCore]
    split
    · next h10 =>
      show decValFold [Nat.digitChar n] = n
      simp [decValFold, digitChar_val h10]
    · next h10 =>
      have hlt : n / 10 < n := Nat.div_lt_self (by omega) (by omega)
      have hd : n % 10 < 10 := Nat.mod_lt _ (by omega)
      rw [decValFold_append_digit, ih _ (by omega), digitChar_val hd]
      omega

theorem decValFold_decDigits (n : Nat) : decValFold (decDigits n) = n :=
  decValFold_decDigitsCore _ _ (Nat.lt_succ_self n)

theorem data_mk (l : List Char) : (String.mk l).data = l := rfl

theorem decToNat?_natToString (n : Nat) : decToNat? (natToString n) = some n := by
  have h1 := decDigits_ne_nil n
  have h2 := decDigits_all_isDigit n
  simp only [decToNat?, natToString, data_mk]
  rw [if_pos]
  · rw [decValFold_decDigits]
  · simp [h2, List.isEmpty_iff, h1]

theorem jsParseInt10_natToString (n : Nat) : jsParseInt10 (natToString n) = some n := by
  have h2 := decDigits_all_isDigit n
  simp only [jsParseInt10, natToString, data_mk]
  rw [List.takeWhile_eq_self_iff.mpr (by simpa [List.all_eq_true] using h2)]
  exact decToNat?_natToString n

theorem natToString_ne_empty (n : Nat) : natToString n ≠ "" := by
  intro h
  exact decDigits_ne_nil n (congrArg String.data h)

/-! ### Data model

Rows of the tables touched by the diecut subsystem.  Field names follow the
columns of KPDBA.DIECUT_SN, KPDBA.DIECUT_MODIFY, KPDBA.WIP_DIECUT and
KPDBA.DIECUT_RESET_HIST; a column not listed in an INSERT is NULL. -/

/-- Abstract timestamp for SQL DATE values, ordered chronologically. -/
abbrev DateVal := Nat

/-- Fixed floor date TO_DATE('01/09/2018','dd/mm/yyyy') used by the usage
aggregation of getStatusReport. -/
def resetEpoch : DateVal := 20180901

/-- Sentinel start time TO_DATE('01/01/1900', 'MM/DD/YYYY') written by
saveDiecutSNList into a fresh DIECUT_MODIFY row. -/
def sentinel1900 : DateVal := 19000101

/-- A row of the serial-number ledger KPDBA.DIECUT_SN. -/
structure SNRow where
  diecutSn : String
  diecutId : String
  diecutType : Option String := none
  diecutAge : Option Int := none
  status : Option String := none
  tlStatus : Option String := none
  dueDate : Option DateVal := none
  lastModify : Option DateVal := none
  jobId : Option String := none
  prodId : Option String := none
  revision : Option String := none
  probDesc : Option String := none
  bladeChangeCount : Option Int := none
  crDate : Option DateVal := none
  crUserId : Option String := none
  crOrgId : Option String := none
  deriving Repr, DecidableEq

/-- A row of the modification log KPDBA.DIECUT_MODIFY. -/
structure ModifyRow where
  diecutSn : String
  startTime : Option DateVal := none
  endTime : Option DateVal := none
  modifyType : Option String := none
  modifyTypeAppvFlag : Option String := none
  modifyTypeReqFrom : Option String := none
  modifyTypeReqTo : Option String := none
  modifyTypeReqRemark : Option String := none
  modifyTypeReqDate : Option DateVal := none
  modifyTypeReqOid : Option String := none
  modifyTypeReqUid : Option String := none
  cancelFlag : Option String := none
  cancelDate : Option DateVal := none
  cancelOrgId : Option String := none
  cancelUserId : Option String := none
  orderDate : Option DateVal := none
  orderOrgId : Option String := none
  orderUserId : Option String := none
  remark : Option String := none
  crDate : Option DateVal := none
  crUserId : Option String := none
  crOrgId : Option String := none
  deriving Repr, DecidableEq

/-- A production-log row of KPDBA.WIP_DIECUT (read-only here). -/
structure WipRow where
  diecutSn : String
  counterQty : Option Int := none
  crDate : DateVal := 0
  deriving Repr, DecidableEq

/-- A reset event of KPDBA.DIECUT_RESET_HIST (read-only here). -/
structure ResetRow where
  diecutSn : String
  resetDate : DateVal := 0
  deriving Repr, DecidableEq

/-- The store state: the four tables the diecut subsystem touches. -/
structure DB where
  snTable : List SNRow := []
  modifyTable : List ModifyRow := []
  wipTable : List WipRow := []
  resetHist : List ResetRow := []
  deriving Repr, DecidableEq

/-! ### Serial issuance (src/utils/helpers.js, DiecutSN.getMaxSerialNumber) -/

/-- Translation of `generateDiecutSN` from src/utils/helpers.js:
`parseInt(currentMaxSN || '0', 10) + 1` rendered with
`String(nextSN).padStart(4, '0')`.  A failed parse is NaN, and
`String(NaN).padStart(4, '0')` renders as "0NaN". -/
def generateDiecutSN (diecutId currentMaxSN : String) : String :=
  let base := if currentMaxSN = "" then "0" else currentMaxSN
  match jsParseInt10 base with
  | some n => diecutId ++ "-" ++ jsPadStart (natToString (n + 1)) 4 '0'
  | none => diecutId ++ "-" ++ jsPadStart "NaN" 4 '0'

/-- `TO_NUMBER(SUBSTR(DIECUT_SN, LENGTH(DIECUT_ID) + 2))` of a ledger row:
the serial string with the diecut id and the dash dropped, parsed as a
number (none both for NULL, when the suffix is empty, and for a TO_NUMBER
failure, distinguished in getMaxSerialNumber). -/
def snSuffix (r : SNRow) : Option Nat :=
  decToNat? (strDrop r.diecutSn (r.diecutId.length + 1))

/-- Translation of `DiecutSN.getMaxSerialNumber` (src/Models/diecut.js lines
192-211): `MAX` of the numeric suffixes of the serials of the diecut, with a
NULL maximum (no rows; JavaScript also maps a 0 maximum through the same
falsy branch, with the same result) returned as the string "0", otherwise
`MAX_SN.toString()`.  An Oracle TO_NUMBER error on a nonempty non-numeric
suffix makes the query itself fail, modelled as `Except.error`; an empty
suffix is SQL NULL and is ignored by MAX. -/
def getMaxSerialNumber (db : DB) (diecutId : String) : Except Unit String :=
  let rows := db.snTable.filter (fun (r : SNRow) => r.diecutId = diecutId)
  let subs := rows.map (fun (r : SNRow) => strDrop r.diecutSn (r.diecutId.length + 1))
  if subs.any (fun s => !s.data.isEmpty && (decToNat? s).isNone) then
    Except.error ()
  else
    match (subs.filterMap decToNat?).max? with
    | none => Except.ok "0"
    | some m => Except.ok (natToString m)

/-- Serial issuance as wired in the generateSerialNumber controller
(src/unnamed/part_004): the new serial is `generateDiecutSN` applied to
`DiecutSN.getMaxSerialNumber`. -/
def issueNext (db : DB) (diecutId : String) : Except Unit String :=
  match getMaxSerialNumber db diecutId with
  | Except.ok m => Except.ok (generateDiecutSN diecutId m)
  | Except.error e => Except.error e

/-! ### Wear & priority engine (DiecutStatus.getStatusReport, lines 1035-1171)

The report's computed columns are translated CASE by CASE from the DSN
subquery.  SQL three-valued logic appears as Option: a comparison with NULL
is not true, so a WHEN branch over a NULL value falls through. -/

/-- `MAX(RESET_DATE)` of KPDBA.DIECUT_RESET_HIST for one serial (the HS
subquery). -/
def lastReset (db : DB) (sn : String) : Option DateVal :=
  ((db.resetHist.filter (fun (h : ResetRow) => h.diecutSn = sn)).map (fun h => h.resetDate)).max?

/-- The UD usage subquery: `SUM(WD.COUNTER_QTY)` over the WIP_DIECUT rows of
the serial (joined against an existing DIECUT_SN row) with
`NVL(COUNTER_QTY, 0) > 0` and `CR_DATE > NVL(last reset, epoch)`; none when
no row qualifies (the serial then has no UD row at all). -/
def usedSum (db : DB) (sn : String) : Option Int :=
  let cutoff := (lastReset db sn).getD resetEpoch
  let rows := db.wipTable.filter (fun (w : WipRow) =>
    w.diecutSn = sn ∧ w.counterQty.getD 0 > 0 ∧ w.crDate > cutoff ∧
      ∃ r ∈ db.snTable, r.diecutSn = w.diecutSn)
  if rows.isEmpty then none
  else some ((rows.map (fun w => w.counterQty.getD 0)).sum)

/-- Oracle `TRUNC` on a number: truncation toward zero. -/
def ratTrunc (q : ℚ) : Int :=
  if 0 ≤ q then ⌊q⌋ else ⌈q⌉

/-- The DIECUT_NEAR_EXP CASE expression of the DSN subquery (lines
1047-1051): 0 when the age is 0, the full age when `NVL(USED, 0) = 0`, else
`TRUNC(DIECUT_MAX)` where DIECUT_MAX is the statistical NE value (NULL
DIECUT_MAX gives NULL). -/
def computeNearExp (age : Int) (used : Option Int) (diecutMax : Option ℚ) : Option Int :=
  if age = 0 then some 0
  else if used.getD 0 = 0 then some age
  else diecutMax.map ratTrunc

/-- The REMAIN CASE expression (lines 1053-1057): the full age when UD.USED
is NULL, else `age - used` clamped at 0. -/
def computeRemain (age : Int) (used : Option Int) : Int :=
  match used with
  | none => age
  | some u => if age - u < 0 then 0 else age - u

/-- The PRIORITY CASE expression (line 1040): '1' when `REMAIN <= 0`, '2'
when `REMAIN <= DIECUT_NEAR_EXP` (a comparison with a NULL threshold is not
true and falls through), else '3'. -/
def computePriority (remain : Int) (nearExp : Option Int) : String :=
  if remain ≤ 0 then "1"
  else
    match nearExp with
    | some t => if remain ≤ t then "2" else "3"
    | none => "3"

/-- One row of the DSN subquery of getStatusReport (the computed columns the
report is about; the outer query only left-joins display columns onto it). -/
structure StatusRow where
  diecutId : String
  diecutSn : String
  ages : Int
  nearExp : Option Int
  used : Int
  remain : Int
  status : Option String
  diecutType : Option String
  priority : String
  deriving Repr, DecidableEq

/-- The DSN subquery columns for one ledger row.  `dmax` supplies the NE
subquery value `DIECUT_AGE - (AVG + 1.96 * (STDDEV / SQRTCOUNTROW))` for the
serial: that value is a real-valued window aggregate over WIP_DIECUT
(AVG/STDDEV/SQRT), kept abstract here because every claim exercises only
the age-0 and used-0 branches of the CASE in front of it. -/
def statusRowOf (db : DB) (dmax : String → Option ℚ) (r : SNRow) : StatusRow :=
  let age := r.diecutAge.getD 0
  let used := usedSum db r.diecutSn
  let nearExp := computeNearExp age used (dmax r.diecutSn)
  let remain := computeRemain age used
  { diecutId := r.diecutId
    diecutSn := r.diecutSn
    ages := age
    nearExp := nearExp
    used := used.getD 0
    remain := remain
    status := r.status
    diecutType := r.diecutType
    priority := computePriority remain nearExp }

/-- Filters accepted by DiecutStatus.getStatusReport.  The controller passes
`req.query.diecutType.split(',')`, so diecutType is a list; a single code is
the one-element list. -/
structure ReportFilters where
  diecutId : Option String := none
  diecutType : List String := []
  priority : Option String := none
  deriving Repr, DecidableEq

/-- Rows of the final statement of getStatusReport for the given filters:
the inner WHERE keeps `NVL(STATUS,'F') <> 'F' AND TL_STATUS = 'GOOD'` and
the code splices `SN.DIECUT_ID = :diecutId` and the DIECUT_TYPE membership
test into it; no predicate is ever added for the priority filter (the code
only wraps the statement as `SELECT * FROM (...)`).  The outer query
left-joins display columns (open modification, tooling sizes, job, product)
onto each DSN row and removes none of them, so the result set is modelled
as the DSN rows themselves. -/
def statusReportRows (db : DB) (dmax : String → Option ℚ) (f : ReportFilters) :
    List StatusRow :=
  let base := db.snTable.filter (fun (r : SNRow) =>
    r.status.getD "F" ≠ "F" ∧ r.tlStatus = some "GOOD")
  let base1 :=
    match f.diecutId with
    | some i => base.filter (fun (r : SNRow) => r.diecutId = i)
    | none => base
  let base2 :=
    if f.diecutType.isEmpty then base1
    else base1.filter (fun (r : SNRow) =>
      match r.diecutType with
      | some t => f.diecutType.contains t
      | none => false)
  base2.map (statusRowOf db dmax)

/-- Placeholder names the diecutId / diecutType WHERE fragments introduce.
Each fragment adds its placeholder to the statement text and the same-named
property to the binds object, in matching pairs: `:diecutId`, and either
`:diecutType` (single code) or `:diecutType0 .. :diecutType{n-1}` (several
codes). -/
def whereClauseBindNames (f : ReportFilters) : List String :=
  (match f.diecutId with
    | some _ => ["diecutId"]
    | none => [])
  ++ (if f.diecutType.isEmpty then []
      else if 1 < f.diecutType.length then
        (List.range f.diecutType.length).map (fun i => "diecutType" ++ natToString i)
      else ["diecutType"])

/-- Placeholder names occurring in the final statement text of
getStatusReport: only the WHERE fragments introduce any — the priority
branch wraps the statement without adding a `:priority` placeholder. -/
def statusReportStatementBindNames (f : ReportFilters) : List String :=
  whereClauseBindNames f

/-- Property names of the binds object getStatusReport hands to
executeQuery: the WHERE fragment names, plus `priority`
(`binds.priority = filters.priority`) whenever the priority filter is
supplied. -/
def statusReportBindKeys (f : ReportFilters) : List String :=
  whereClauseBindNames f
    ++ (match f.priority with
        | some _ => ["priority"]
        | none => [])

/-- Object-bind check of node-oracledb's `connection.execute`, to which
executeQuery (src/unnamed/part_005) passes the binds object unchanged:
every property of the binds object must occur as a placeholder in the
statement, otherwise the call raises ORA-01036. -/
def oraBindsAccepted (stmtNames keys : List String) : Bool :=
  keys.all (fun k => stmtNames.contains k)

/-- Translation of `DiecutStatus.getStatusReport` (lines 1035-1171) as
executed through executeQuery.  When the binds object matches the
statement's placeholders the query returns the statusReportRows.  When
`filters.priority` is supplied the code wraps the statement and sets
`binds.priority` but appends no WHERE predicate and no `:priority`
placeholder, so node-oracledb rejects the unused bind with ORA-01036, the
catch block rethrows, and the endpoint answers 500. -/
def getStatusReport (db : DB) (dmax : String → Option ℚ) (f : ReportFilters) :
    Except String (List StatusRow) :=
  if oraBindsAccepted (statusReportStatementBindNames f) (statusReportBindKeys f) then
    Except.ok (statusReportRows db dmax f)
  else
    Except.error "ORA-01036: illegal variable name/number"

/-! ### Modification workflow (DiecutSN / DiecutStatus methods) -/

/-- Translation of `DiecutSN.saveTypeChange` (lines 750-796): one UPDATE on
KPDBA.DIECUT_MODIFY writing the request fields of the rows of the serial.
The approval-flag value written is whatever the request body supplied. -/
def saveTypeChange (db : DB) (diecutSN : String)
    (modifyTypeAppvFlag changeReason modifyTypeBefore modifyType : Option String)
    (orgId empId : String) (now : DateVal) : DB × Bool :=
  ({ db with
      modifyTable := db.modifyTable.map (fun (m : ModifyRow) =>
        if m.diecutSn = diecutSN then
          { m with
              modifyTypeAppvFlag := modifyTypeAppvFlag
              modifyTypeReqRemark := changeReason
              modifyTypeReqFrom := modifyTypeBefore
              modifyTypeReqTo := modifyType
              modifyTypeReqDate := some now
              modifyTypeReqOid := some orgId
              modifyTypeReqUid := some empId }
        else m) },
    true)

/-- Translation of `DiecutSN.approveTypeChange` (lines 798-835): a first
UPDATE sets `MODIFY_TYPE_APPV_FLAG = 'A'` and `MODIFY_TYPE = :modifyType` on
the KPDBA.DIECUT_MODIFY rows of the serial; a second UPDATE sets
`STATUS = :modifyType` on the KPDBA.DIECUT_SN rows of the serial.  No other
column is written by either statement. -/
def approveTypeChange (db : DB) (diecutSN modifyType : String) : DB × Bool :=
  let db1 := { db with
    modifyTable := db.modifyTable.map (fun (m : ModifyRow) =>
      if m.diecutSn = diecutSN then
        { m with modifyTypeAppvFlag := some "A", modifyType := some modifyType }
      else m) }
  let db2 := { db1 with
    snTable := db1.snTable.map (fun (r : SNRow) =>
      if r.diecutSn = diecutSN then { r with status := some modifyType } else r) }
  (db2, true)

/-- Literal text (whitespace normalised) of the UPDATE statement executed
first by `DiecutSN.cancelTypeChange` (lines 843-847).  Note the comma
between "NULL" and "WHERE": the SET list ends in a dangling comma. -/
def cancelTypeChangeUpdateSql : String :=
  "UPDATE KPDBA.DIECUT_MODIFY SET MODIFY_TYPE_APPV_FLAG = NULL, WHERE DIECUT_SN = :diecut_sn"

/-- Whitespace tokenisation of a SQL statement. -/
def sqlTokens (s : String) : List String :=
  ((s.data.splitOnP (fun c => c = ' ')).map String.mk).filter (fun t => t ≠ "")

/-- True when the token's last character is a comma. -/
def endsInComma (t : String) : Bool :=
  match t.data.getLast? with
  | some c => c = ','
  | none => false

/-- Detects a SET list that ends in a comma directly followed by the WHERE
keyword; Oracle rejects such a statement (ORA-01747), so executing it
raises. -/
def danglingCommaBeforeWhere : List String → Bool
  | t1 :: t2 :: rest =>
    (endsInComma t1 && t2 = "WHERE") || danglingCommaBeforeWhere (t2 :: rest)
  | _ => false

/-- Translation of `DiecutSN.cancelTypeChange` (lines 837-884): the first
`executeQuery` runs `cancelTypeChangeUpdateSql`; because that statement is
syntactically invalid the store raises, the catch block rethrows, and the
whole operation fails.  The continuation after that statement (flag set to
NULL on the serial's modification rows, then MODIFY_TYPE of the first row
read back — `|| null` mapping an empty string to null — as originalType) is
translated in the unreachable else branch. -/
def cancelTypeChange (db : DB) (diecutSN : String) :
    Except String (DB × Option String) :=
  if danglingCommaBeforeWhere (sqlTokens cancelTypeChangeUpdateSql) then
    Except.error "ORA-01747: invalid user.table.column specification"
  else
    let db1 := { db with
      modifyTable := db.modifyTable.map (fun (m : ModifyRow) =>
        if m.diecutSn = diecutSN then { m with modifyTypeAppvFlag := none } else m) }
    let originalType :=
      match (db1.modifyTable.filter (fun (m : ModifyRow) => m.diecutSn = diecutSN)).head? with
      | some m => match m.modifyType with
        | some t => if t = "" then none else some t
        | none => none
      | none => none
    Except.ok (db1, originalType)

/-- Translation of `DiecutSN.cancelOrder` (lines 477-519): one UPDATE on
KPDBA.DIECUT_MODIFY sets `CANCEL_FLAG='T'`, the cancel audit fields and
`MODIFY_TYPE='F'` on the rows of the serial; a second UPDATE on
KPDBA.DIECUT_SN sets `STATUS='F'`, `DUE_DATE=NULL`, `LAST_MODIFY=SYSDATE`.
Both updates run unconditionally and the result is success even when no row
matches. -/
def cancelOrder (db : DB) (diecutSN orgId empId : String) (now : DateVal) :
    DB × Bool :=
  let db1 := { db with
    modifyTable := db.modifyTable.map (fun (m : ModifyRow) =>
      if m.diecutSn = diecutSN then
        { m with
            cancelFlag := some "T"
            cancelDate := some now
            cancelOrgId := some orgId
            cancelUserId := some empId
            modifyType := some "F" }
      else m) }
  let db2 := { db1 with
    snTable := db1.snTable.map (fun (r : SNRow) =>
      if r.diecutSn = diecutSN then
        { r with status := some "F", dueDate := none, lastModify := some now }
      else r) }
  (db2, true)

/-! ### Batch registration (DiecutStatus.saveDiecutSNList, lines 921-1033) -/

/-- One entry of the snList request body; only its DIECUT_SN field is read
(the DIECUT_TYPE branch in the source is commented out). -/
structure SNEntry where
  DIECUT_SN : Option String := none
  deriving Repr, DecidableEq

/-- Counters returned by saveDiecutSNList. -/
structure SaveResult where
  savedCount : Nat := 0
  modifyCount : Nat := 0
  skippedCount : Nat := 0
  deriving Repr, DecidableEq

/-- The ledger row written by the insertSNQuery of saveDiecutSNList:
`(DIECUT_SN, DIECUT_ID, DIECUT_AGE=0, DIECUT_TYPE, CR_DATE=SYSDATE,
CR_USER_ID, CR_ORG_ID, STATUS)`; every other column is NULL. -/
def newLedgerRow (sn diecutId : String) (dcType status : Option String)
    (orgId empId : String) (now : DateVal) : SNRow :=
  { diecutSn := sn
    diecutId := diecutId
    diecutType := dcType
    diecutAge := some 0
    status := status
    crDate := some now
    crUserId := some empId
    crOrgId := some orgId }

/-- The modification row written by the insertModifyQuery of
saveDiecutSNList: `(DIECUT_SN, START_TIME=1900-01-01, MODIFY_TYPE=STATUS,
CR_DATE=SYSDATE, CR_USER_ID, CR_ORG_ID)`; every other column is NULL. -/
def newModifyRow (sn : String) (status : Option String)
    (orgId empId : String) (now : DateVal) : ModifyRow :=
  { diecutSn := sn
    startTime := some sentinel1900
    modifyType := status
    crDate := some now
    crUserId := some empId
    crOrgId := some orgId }

/-- One iteration of the `for (const sn of snList)` loop of
saveDiecutSNList: a falsy DIECUT_SN is skipped without touching any counter;
an already existing serial increments skippedCount only; otherwise the
ledger row and the paired modification row are inserted and savedCount and
modifyCount are incremented. -/
def saveDiecutSNStep (diecutId : String) (dcType status : Option String)
    (orgId empId : String) (now : DateVal) (acc : DB × SaveResult)
    (e : SNEntry) : DB × SaveResult :=
  let db := acc.1
  let res := acc.2
  if !(jsTruthy e.DIECUT_SN) then acc
  else
    let sn := e.DIECUT_SN.getD ""
    if db.snTable.any (fun (r : SNRow) => r.diecutSn = sn) then
      (db, { res with skippedCount := res.skippedCount + 1 })
    else
      ({ db with
          snTable := db.snTable ++ [newLedgerRow sn diecutId dcType status orgId empId now]
          modifyTable := db.modifyTable ++ [newModifyRow sn status orgId empId now] },
        { res with
            savedCount := res.savedCount + 1
            modifyCount := res.modifyCount + 1 })

/-- Translation of `DiecutStatus.saveDiecutSNList(diecutId, snList,
diecut_TYPE, ORG_ID, EMP_ID, STATUS)` (lines 921-1033): the loop above over
the list, starting from zero counters. -/
def saveDiecutSNList (db : DB) (diecutId : String) (snList : List SNEntry)
    (dcType status : Option String) (orgId empId : String) (now : DateVal) :
    DB × SaveResult :=
  snList.foldl (saveDiecutSNStep diecutId dcType status orgId empId now)
    (db, {})

/-! ### Order change (DiecutStatus.orderChange and its controller) -/

/-- Translation of `DiecutStatus.orderChange` (lines 1552-1596): one UPDATE
sets `STATUS = :modifyType` and `PROB_DESC = :problemDesc` (the bind is
`problemDesc || null`, so a falsy description is NULL) on the rows matching
both diecut_id and diecut_sn; when modifyType is 'B' a second UPDATE sets
`BLADE_CHANGE_COUNT = NVL(BLADE_CHANGE_COUNT, 0) + 1` on the same rows.  The
dueDate argument is never used by the statements.  The function returns
true. -/
def orderChange (db : DB) (diecutId diecutSN modifyType : String)
    (problemDesc : Option String) : DB × Bool :=
  let pd := if jsTruthy problemDesc then problemDesc else none
  let db1 := { db with
    snTable := db.snTable.map (fun (r : SNRow) =>
      if r.diecutId = diecutId ∧ r.diecutSn = diecutSN then
        { r with status := some modifyType, probDesc := pd }
      else r) }
  let db2 :=
    if modifyType = "B" then
      { db1 with
        snTable := db1.snTable.map (fun (r : SNRow) =>
          if r.diecutId = diecutId ∧ r.diecutSn = diecutSN then
            { r with bladeChangeCount := some (r.bladeChangeCount.getD 0 + 1) }
          else r) }
    else db1
  (db2, true)

/-- Request body of the orderChange endpoint. -/
structure OrderChangeRequest where
  diecutId : Option String := none
  diecutSN : Option String := none
  modifyType : Option String := none
  problemDesc : Option String := none
  dueDate : Option String := none
  deriving Repr, DecidableEq

/-- HTTP-level outcome of the orderChange endpoint. -/
inductive HttpOutcome where
  | badRequest (message : String)
  | ok (message : String)
  deriving Repr, DecidableEq

/-- Translation of `exports.orderChange` (src/unnamed/part_004 lines
412-446): a falsy diecutId, diecutSN or modifyType returns 400; modifyType
'E' with a falsy problemDesc returns 400; both checks run before the store
is touched; otherwise `DiecutStatus.orderChange` runs and the envelope is
success with status 200. -/
def orderChangeEndpoint (db : DB) (req : OrderChangeRequest) : DB × HttpOutcome :=
  if !(jsTruthy req.diecutId) || !(jsTruthy req.diecutSN) || !(jsTruthy req.modifyType) then
    (db, HttpOutcome.badRequest "Missing required parameters: diecutId, diecutSN, or modifyType")
  else if req.modifyType = some "E" && !(jsTruthy req.problemDesc) then
    (db, HttpOutcome.badRequest "Problem description is required for repair (E) type")
  else
    ((orderChange db (req.diecutId.getD "") (req.diecutSN.getD "")
        (req.modifyType.getD "") req.problemDesc).1,
      HttpOutcome.ok "Diecut saved successfully")

/-! ### Shared proof helpers and example states -/

theorem any_map_comp {α β : Type} (l : List α) (f : α → β) (p : β → Bool) :
    (l.map f).any p = l.any (fun a => p (f a)) := by
  induction l with
  | nil => rfl
  | cons a l ih => simp [List.any_cons, ih]

theorem generateDiecutSN_natToString (diecutId : String) (n : Nat) :
    generateDiecutSN diecutId (natToString n)
      = diecutId ++ "-" ++ jsPadStart (natToString (n + 1)) 4 '0' := by
  simp only [generateDiecutSN, if_neg (natToString_ne_empty n), jsParseInt10_natToString]

/-- Ledger holding serials D1-0001 .. D1-0007 of diecut D1 (and a serial of
another diecut), the concrete state of the issuance property. -/
def c5Db : DB :=
  { snTable := [
      { diecutSn := "D1-0001", diecutId := "D1" },
      { diecutSn := "D1-0002", diecutId := "D1" },
      { diecutSn := "D1-0003", diecutId := "D1" },
      { diecutSn := "D1-0004", diecutId := "D1" },
      { diecutSn := "D1-0005", diecutId := "D1" },
      { diecutSn := "D1-0006", diecutId := "D1" },
      { diecutSn := "D1-0007", diecutId := "D1" },
      { diecutSn := "ZZ-0044", diecutId := "ZZ" } ] }

/-! ### Claim theorems -/

/-- C5: for every diecut whose existing SNs all carry parseable numeric
suffixes with maximum n, issueNext returns "{diecutId}-" followed by n + 1
zero-padded to (at least) 4 digits; for a diecut with no SNs it returns
"{diecutId}-0001". -/
theorem c5_issueNext_serial_issuance (db : DB) (diecutId : String) :
    (∀ n : Nat,
        (∀ r ∈ db.snTable, r.diecutId = diecutId → (snSuffix r).isSome) →
        ((db.snTable.filter (fun (r : SNRow) => r.diecutId = diecutId)).filterMap
            snSuffix).max? = some n →
        issueNext db diecutId
          = Except.ok (diecutId ++ "-" ++ jsPadStart (natToString (n + 1)) 4 '0'))
  ∧ (db.snTable.filter (fun (r : SNRow) => r.diecutId = diecutId) = [] →
        issueNext db diecutId = Except.ok (diecutId ++ "-0001")) := by
  constructor
  · intro n hparse hmax
    have hnoerr :
        ((db.snTable.filter (fun (r : SNRow) => r.diecutId = diecutId)).map
            (fun r => strDrop r.diecutSn (r.diecutId.length + 1))).any
          (fun s => !s.data.isEmpty && (decToNat? s).isNone) = false := by
      rw [any_map_comp, List.any_eq_false]
      intro r hr
      have hid : r.diecutId = diecutId := by
        have := List.of_mem_filter hr
        simpa using this
      have hsome : (snSuffix r).isSome :=
        hparse r (List.mem_of_mem_filter hr) hid
      rw [show decToNat? (strDrop r.diecutSn (r.diecutId.length + 1)) = snSuffix r
        from rfl]
      cases h : snSuffix r with
      | none => rw [h] at hsome; simp at hsome
      | some v => simp
    have hfm :
        ((db.snTable.filter (fun (r : SNRow) => r.diecutId = diecutId)).map
            (fun r => strDrop r.diecutSn (r.diecutId.length + 1))).filterMap decToNat?
          = (db.snTable.filter (fun (r : SNRow) => r.diecutId = diecutId)).filterMap
              snSuffix := by
      rw [List.filterMap_map]
      rfl
    rw [issueNext, getMaxSerialNumber]
    simp only [hnoerr, Bool.false_eq_true, if_false, hfm, hmax]
    rw [generateDiecutSN_natToString]
  · intro hempty
    rw [issueNext, getMaxSerialNumber]
    simp only [hempty, List.map_nil, List.any_nil, List.filterMap_nil, List.max?_nil]
    show Except.ok (generateDiecutSN diecutId "0") = _
    have : generateDiecutSN diecutId "0"
        = diecutId ++ "-" ++ jsPadStart (natToString 1) 4 '0' := by
      rw [show ("0" : String) = natToString 0 from by decide]
      exact generateDiecutSN_natToString diecutId 0
    rw [this]
    rw [show jsPadStart (natToString 1) 4 '0' = "0001" from by decide]
    rw [show diecutId ++ "-" ++ "0001" = diecutId ++ "-0001" from by
      rw [String.append_assoc, show ("-" ++ "0001" : String) = "-0001" from by decide]]

/-- C5 witness: at the concrete ledger c5Db (suffix maximum 7) the issued
serial is D1-0008, and at the empty ledger it is D1-0001. -/
theorem c5_issueNext_serial_issuance_witness :
    issueNext c5Db "D1" = Except.ok ("D1" ++ "-" ++ jsPadStart (natToString 8) 4 '0')
  ∧ issueNext ({} : DB) "D1" = Except.ok ("D1" ++ "-0001") := by
  constructor
  · exact (c5_issueNext_serial_issuance c5Db "D1").1 7 (by decide) (by decide)
  · exact (c5_issueNext_serial_issuance ({} : DB) "D1").2 (by decide)

theorem mem_statusReportRows {db : DB} {dmax : String → Option ℚ}
    {f : ReportFilters} {row : StatusRow} (h : row ∈ statusReportRows db dmax f) :
    ∃ r, r ∈ db.snTable ∧ row = statusRowOf db dmax r := by
  simp only [statusReportRows] at h
  rw [List.mem_map] at h
  obtain ⟨r, hr, hrow⟩ := h
  refine ⟨r, ?_, hrow.symm⟩
  split at hr
  · split at hr
    · exact List.mem_of_mem_filter (List.mem_of_mem_filter hr)
    · exact List.mem_of_mem_filter hr
  · have hr1 := List.mem_of_mem_filter hr
    split at hr1
    · exact List.mem_of_mem_filter (List.mem_of_mem_filter hr1)
    · exact List.mem_of_mem_filter hr1

theorem mem_getStatusReport {db : DB} {dmax : String → Option ℚ}
    {f : ReportFilters} {rows : List StatusRow} {row : StatusRow}
    (hok : getStatusReport db dmax f = Except.ok rows) (h : row ∈ rows) :
    ∃ r, r ∈ db.snTable ∧ row = statusRowOf db dmax r := by
  simp only [getStatusReport] at hok
  split at hok
  · injection hok with hrows
    rw [← hrows] at h
    exact mem_statusReportRows h
  · exact absurd hok (by simp)

theorem usedSum_pos {db : DB} {sn : String} {v : Int}
    (h : usedSum db sn = some v) : 0 < v := by
  simp only [usedSum] at h
  split at h
  · exact absurd h (by simp)
  · next hne =>
    injection h with hv
    rw [← hv]
    apply List.sum_pos
    · intro x hx
      rw [List.mem_map] at hx
      obtain ⟨w, hw, hwx⟩ := hx
      have := List.of_mem_filter hw
      rw [← hwx]
      simp only [decide_eq_true_eq] at this
      exact this.2.1
    · intro hnil
      exact hne (List.isEmpty_iff.mpr (List.map_eq_nil_iff.mp hnil))

/-- A ledger with one active, tool-good serial of age 100 and no production
usage at all. -/
def exDb100 : DB :=
  { snTable := [
      { diecutSn := "D1-0001", diecutId := "D1", diecutType := some "DC",
        diecutAge := some 100, status := some "N", tlStatus := some "GOOD" } ] }

/-- The report row getStatusReport computes for the serial of exDb100. -/
def exRow100 : StatusRow :=
  { diecutId := "D1", diecutSn := "D1-0001", ages := 100, nearExp := some 100,
    used := 0, remain := 100, status := some "N", diecutType := some "DC",
    priority := "2" }

/-- C1 counterexample: at the concrete state exDb100, the (unfiltered)
status report succeeds and its row for the age-100, zero-usage serial has
remain = 100 and threshold = 100 but priority "2" (near-expiry), not "3" as
claimed. -/
theorem c1_age100_unused_priority_counterexample :
    ∃ rows, getStatusReport exDb100 (fun _ => none) {} = Except.ok rows
      ∧ ∃ row ∈ rows,
          row.ages = 100 ∧ row.used = 0 ∧ row.remain = 100
            ∧ row.nearExp = some 100 ∧ row.priority ≠ "3" := by
  exact ⟨[exRow100], by rfl, exRow100, by decide, by decide, by decide, by decide,
    by decide, by decide⟩

/-- C1 (amended): for every SN whose report row shows age 100 and no
recorded usage (used = 0), the status report computes remain = 100 and
nearExpiryThreshold = 100, but priority "2" (near-expiry): the PRIORITY
CASE classifies `remain <= threshold` inclusively, so `remain = threshold`
is near-expiry, not good. -/
theorem c1_age100_unused_classification (db : DB) (dmax : String → Option ℚ)
    (f : ReportFilters) (rows : List StatusRow) (row : StatusRow)
    (hok : getStatusReport db dmax f = Except.ok rows) (hrow : row ∈ rows)
    (hage : row.ages = 100) (hused : row.used = 0) :
    row.remain = 100 ∧ row.nearExp = some 100 ∧ row.priority = "2" := by
  obtain ⟨r, hmem, hEq⟩ := mem_getStatusReport hok hrow
  subst hEq
  simp only [statusRowOf] at hage hused ⊢
  have husednone : usedSum db r.diecutSn = none := by
    cases h : usedSum db r.diecutSn with
    | none => rfl
    | some v =>
      have hpos := usedSum_pos h
      rw [h] at hused
      simp only [Option.getD_some] at hused
      omega
  rw [husednone] at hused ⊢
  rw [hage]
  norm_num [computeRemain, computeNearExp, computePriority]

/-- C1 witness: the hypotheses and the amended conclusion hold at the
concrete state exDb100 and its report row. -/
theorem c1_age100_unused_classification_witness :
    (getStatusReport exDb100 (fun _ => none) {} = Except.ok [exRow100])
  ∧ exRow100 ∈ [exRow100] ∧ exRow100.ages = 100 ∧ exRow100.used = 0
  ∧ (exRow100.remain = 100 ∧ exRow100.nearExp = some 100 ∧ exRow100.priority = "2") := by
  exact ⟨by rfl, by decide, by decide, by decide,
    c1_age100_unused_classification exDb100 (fun _ => none) {} [exRow100] exRow100
      (by rfl) (by decide) (by decide) (by decide)⟩

theorem priority_not_mem_whereClauseBindNames (f : ReportFilters) :
    ("priority" : String) ∉ whereClauseBindNames f := by
  intro h
  unfold whereClauseBindNames at h
  rw [List.mem_append] at h
  rcases h with h | h
  · split at h
    · rw [List.mem_singleton] at h
      exact absurd h (by decide)
    · simp at h
  · split at h
    · simp at h
    · split at h
      · rw [List.mem_map] at h
        obtain ⟨i, _, hi⟩ := h
        have hlen : ("diecutType" ++ natToString i).data.length
            = ("priority" : String).data.length := by rw [hi]
        rw [String.data_append, List.length_append] at hlen
        have h10 : ("diecutType" : String).data.length = 10 := by decide
        have h8 : ("priority" : String).data.length = 8 := by decide
        have h1 : 1 ≤ (natToString i).data.length := by
          show 1 ≤ (decDigits i).length
          cases hD : decDigits i with
          | nil => exact absurd hD (decDigits_ne_nil i)
          | cons a l => simp
        omega
      · rw [List.mem_singleton] at h
        exact absurd h (by decide)

theorem statusReport_binds_rejected {f : ReportFilters} {p : String}
    (hp : f.priority = some p) :
    oraBindsAccepted (statusReportStatementBindNames f) (statusReportBindKeys f)
      = false := by
  unfold oraBindsAccepted
  rw [List.all_eq_false]
  refine ⟨"priority", ?_, ?_⟩
  · unfold statusReportBindKeys
    rw [hp]
    exact List.mem_append_right _ (List.mem_singleton_self _)
  · simpa using priority_not_mem_whereClauseBindNames f

/-- C4: supplying any filters.priority makes getStatusReport fail with
ORA-01036 instead of returning a priority-filtered report — the code sets
binds.priority but the wrapped statement contains neither a :priority
placeholder nor any WHERE predicate for it, so node-oracledb rejects the
unused bind, the error propagates, and the endpoint answers 500; no rows
at all are returned, let alone only rows of the requested priority. -/
theorem c4_priority_filter_error (db : DB) (dmax : String → Option ℚ)
    (f : ReportFilters) (p : String) (hp : f.priority = some p) :
    getStatusReport db dmax f
      = Except.error "ORA-01036: illegal variable name/number" := by
  unfold getStatusReport
  rw [if_neg (by rw [statusReport_binds_rejected hp]; exact Bool.false_ne_true)]

/-- C4 witness: the concrete priority-'1' request on exDb100 — whose only
computed row has priority '2' — raises ORA-01036. -/
theorem c4_priority_filter_error_witness :
    statusReportRows exDb100 (fun _ => none) { priority := some "1" }
        = [exRow100]
  ∧ exRow100.priority = "2"
  ∧ getStatusReport exDb100 (fun _ => none) { priority := some "1" }
      = Except.error "ORA-01036: illegal variable name/number" :=
  ⟨by decide, by decide,
    c4_priority_filter_error exDb100 (fun _ => none) { priority := some "1" } "1" rfl⟩

/-- A state with a pending type-change request (from DC to BD) on serial
D1-0001, whose live diecutType is DC. -/
def c2Db : DB :=
  { snTable := [
      { diecutSn := "D1-0001", diecutId := "D1", diecutType := some "DC",
        status := some "N", tlStatus := some "GOOD" } ]
    modifyTable := [
      { diecutSn := "D1-0001", modifyType := some "N",
        modifyTypeAppvFlag := some "P", modifyTypeReqFrom := some "DC",
        modifyTypeReqTo := some "BD" } ] }

/-- C2 counterexample: approving the pending DC→BD request at the concrete
state c2Db updates the SN's live STATUS to BD but leaves its live
diecutType at DC — the live diecutType does not become the approved type as
claimed. -/
theorem c2_approveTypeChange_diecutType_counterexample :
    ∃ r ∈ (approveTypeChange c2Db "D1-0001" "BD").1.snTable,
      r.diecutSn = "D1-0001" ∧ r.status = some "BD"
        ∧ r.diecutType = some "DC" ∧ r.diecutType ≠ some "BD" := by
  exact ⟨{ diecutSn := "D1-0001", diecutId := "D1", diecutType := some "DC",
            status := some "BD", tlStatus := some "GOOD" },
    by decide, by decide, by decide, by decide, by decide⟩

/-- C2 (amended): for every SN with a pending type-change request,
approveTypeChange sets the modification row's approval flag to 'A' and its
MODIFY_TYPE to the approved type, and propagates the approved type onto the
SN's live STATUS only; the SN's live diecutType is left unchanged.  Rows of
other serials are untouched. -/
theorem c2_approveTypeChange_propagation (db : DB) (sn t : String)
    (hpending : ∃ m ∈ db.modifyTable, m.diecutSn = sn ∧ m.modifyTypeReqTo.isSome) :
    (approveTypeChange db sn t).2 = true
  ∧ List.Forall₂ (fun m m' =>
      (m.diecutSn = sn → m'.modifyTypeAppvFlag = some "A" ∧ m'.modifyType = some t)
      ∧ (m.diecutSn ≠ sn → m' = m))
      db.modifyTable (approveTypeChange db sn t).1.modifyTable
  ∧ List.Forall₂ (fun r r' =>
      (r.diecutSn = sn → r'.status = some t ∧ r'.diecutType = r.diecutType)
      ∧ (r.diecutSn ≠ sn → r' = r))
      db.snTable (approveTypeChange db sn t).1.snTable := by
  refine ⟨rfl, ?_, ?_⟩
  · rw [show (approveTypeChange db sn t).1.modifyTable
        = List.map (fun (m : ModifyRow) =>
            if m.diecutSn = sn then
              { m with modifyTypeAppvFlag := some "A", modifyType := some t }
            else m) db.modifyTable from rfl]
    rw [List.forall₂_map_right_iff, List.forall₂_same]
    intro m _
    constructor
    · intro hsn
      rw [if_pos hsn]
      exact ⟨rfl, rfl⟩
    · intro hsn
      rw [if_neg hsn]
  · rw [show (approveTypeChange db sn t).1.snTable
        = List.map (fun (r : SNRow) =>
            if r.diecutSn = sn then { r with status := some t } else r)
            db.snTable from rfl]
    rw [List.forall₂_map_right_iff, List.forall₂_same]
    intro r _
    constructor
    · intro hsn
      rw [if_pos hsn]
      exact ⟨rfl, rfl⟩
    · intro hsn
      rw [if_neg hsn]

/-- C2 witness: the pending-request hypothesis holds at c2Db and the
operation reports success there. -/
theorem c2_approveTypeChange_propagation_witness :
    (approveTypeChange c2Db "D1-0001" "BD").2 = true :=
  (c2_approveTypeChange_propagation c2Db "D1-0001" "BD" (by decide)).1

/-- C3: cancelTypeChange never succeeds: its first UPDATE statement has a
dangling comma between the SET list and WHERE, so the store rejects the
statement and the whole operation throws for every state and serial,
instead of nulling the approval flag and returning the remaining
modify-type value as originalType. -/
theorem c3_cancelTypeChange_always_fails (db : DB) (sn : String) :
    cancelTypeChange db sn
      = Except.error "ORA-01747: invalid user.table.column specification" := by
  unfold cancelTypeChange
  rw [if_pos
    (by decide : danglingCommaBeforeWhere (sqlTokens cancelTypeChangeUpdateSql) = true)]

/-- C10: cancelOrder succeeds unconditionally (even when no row matches);
on the serial's modification rows it sets the cancel flag, the cancel audit
fields and overwrites MODIFY_TYPE to 'F' while keeping the other columns;
on the serial's ledger rows it changes only STATUS (to 'F'), DUE_DATE (to
NULL) and LAST_MODIFY, leaving DIECUT_AGE, DIECUT_TYPE, JOB_ID, PROD_ID and
REVISION unchanged; rows of other serials are untouched. -/
theorem c10_cancelOrder_frame (db : DB) (sn orgId empId : String) (now : DateVal) :
    (cancelOrder db sn orgId empId now).2 = true
  ∧ List.Forall₂ (fun m m' =>
      (m.diecutSn = sn →
        m'.cancelFlag = some "T" ∧ m'.cancelDate = some now
          ∧ m'.cancelOrgId = some orgId ∧ m'.cancelUserId = some empId
          ∧ m'.modifyType = some "F"
          ∧ m'.startTime = m.startTime ∧ m'.endTime = m.endTime
          ∧ m'.modifyTypeAppvFlag = m.modifyTypeAppvFlag
          ∧ m'.orderDate = m.orderDate)
      ∧ (m.diecutSn ≠ sn → m' = m))
      db.modifyTable (cancelOrder db sn orgId empId now).1.modifyTable
  ∧ List.Forall₂ (fun r r' =>
      (r.diecutSn = sn →
        r'.status = some "F" ∧ r'.dueDate = none ∧ r'.lastModify = some now
          ∧ r'.diecutAge = r.diecutAge ∧ r'.diecutType = r.diecutType
          ∧ r'.jobId = r.jobId ∧ r'.prodId = r.prodId ∧ r'.revision = r.revision)
      ∧ (r.diecutSn ≠ sn → r' = r))
      db.snTable (cancelOrder db sn orgId empId now).1.snTable := by
  refine ⟨rfl, ?_, ?_⟩
  · rw [show (cancelOrder db sn orgId empId now).1.modifyTable
        = List.map (fun (m : ModifyRow) =>
            if m.diecutSn = sn then
              { m with
                  cancelFlag := some "T", cancelDate := some now,
                  cancelOrgId := some orgId, cancelUserId := some empId,
                  modifyType := some "F" }
            else m) db.modifyTable from rfl]
    rw [List.forall₂_map_right_iff, List.forall₂_same]
    intro m _
    constructor
    · intro hsn
      rw [if_pos hsn]
      exact ⟨rfl, rfl, rfl, rfl, rfl, rfl, rfl, rfl, rfl⟩
    · intro hsn
      rw [if_neg hsn]
  · rw [show (cancelOrder db sn orgId empId now).1.snTable
        = List.map (fun (r : SNRow) =>
            if r.diecutSn = sn then
              { r with status := some "F", dueDate := none, lastModify := some now }
            else r) db.snTable from rfl]
    rw [List.forall₂_map_right_iff, List.forall₂_same]
    intro r _
    constructor
    · intro hsn
      rw [if_pos hsn]
      exact ⟨rfl, rfl, rfl, rfl, rfl, rfl, rfl, rfl⟩
    · intro hsn
      rw [if_neg hsn]

/-- Per-row effect of the two UPDATE statements of orderChange with
modifyType 'B': the matching rows get STATUS 'B', the bound PROB_DESC, and
the blade counter bumped by one. -/
theorem orderChange_bladeB_snTable (db : DB) (i s : String) (pd : Option String) :
    (orderChange db i s "B" pd).1.snTable
      = db.snTable.map (fun (r : SNRow) =>
          if r.diecutId = i ∧ r.diecutSn = s then
            { r with
                status := some "B"
                probDesc := if jsTruthy pd then pd else none
                bladeChangeCount := some (r.bladeChangeCount.getD 0 + 1) }
          else r) := by
  simp only [orderChange]
  rw [if_pos trivial, List.map_map]
  refine List.map_congr_left ?_
  intro r _
  by_cases hc : r.diecutId = i ∧ r.diecutSn = s
  · simp only [Function.comp_apply, if_pos hc]
  · simp only [Function.comp_apply, if_neg hc]

/-- C8: each orderChange call with modifyType 'B' increments the serial's
bladeChangeCount by exactly one (NVL treats a NULL counter as 0), and two
successive calls add two — from a zero or NULL counter: 0 → 1 → 2.  Rows
not matching the (diecutId, diecutSn) pair keep their counter. -/
theorem c8_orderChange_blade_counter (db : DB) (i s : String) (pd : Option String) :
    List.Forall₂ (fun r r' =>
      (r.diecutId = i ∧ r.diecutSn = s →
         r'.bladeChangeCount = some (r.bladeChangeCount.getD 0 + 1))
      ∧ (¬(r.diecutId = i ∧ r.diecutSn = s) →
         r'.bladeChangeCount = r.bladeChangeCount))
      db.snTable (orderChange db i s "B" pd).1.snTable
  ∧ List.Forall₂ (fun r r'' =>
      r.diecutId = i ∧ r.diecutSn = s →
        r''.bladeChangeCount = some (r.bladeChangeCount.getD 0 + 2))
      db.snTable (orderChange (orderChange db i s "B" pd).1 i s "B" pd).1.snTable := by
  constructor
  · rw [orderChange_bladeB_snTable]
    rw [List.forall₂_map_right_iff, List.forall₂_same]
    intro r _
    constructor
    · intro hc
      rw [if_pos hc]
    · intro hc
      rw [if_neg hc]
  · rw [orderChange_bladeB_snTable, orderChange_bladeB_snTable, List.map_map]
    rw [List.forall₂_map_right_iff, List.forall₂_same]
    intro r _
    intro hc
    simp only [Function.comp_apply, if_pos hc, Option.getD_some]
    congr 1
    omega

theorem jsTruthy_some_iff (x : String) : jsTruthy (some x) = true ↔ x ≠ "" := by
  show (!x.data.isEmpty) = true ↔ x ≠ ""
  rw [Bool.not_eq_true', Bool.eq_false_iff]
  constructor
  · intro h hx
    exact h (by rw [hx]; rfl)
  · intro h he
    exact h (String.ext (List.isEmpty_iff.mp he))

/-- C7: orderChange with modifyType 'E' and a falsy problemDesc answers 400
with the state untouched — the check precedes any store access; the same
call with a non-empty problemDesc answers 200 and persists the description
(and status 'E') on the matching SN rows. -/
theorem c7_orderChange_repair_validation (db : DB) (req : OrderChangeRequest)
    (i s p : String) :
    ((req.modifyType = some "E" → jsTruthy req.problemDesc = false →
        (orderChangeEndpoint db req).1 = db
          ∧ ∃ msg, (orderChangeEndpoint db req).2 = HttpOutcome.badRequest msg))
  ∧ (req.diecutId = some i → i ≠ "" → req.diecutSN = some s → s ≠ "" →
     req.modifyType = some "E" → req.problemDesc = some p → p ≠ "" →
       (orderChangeEndpoint db req).2 = HttpOutcome.ok "Diecut saved successfully"
         ∧ ∀ r ∈ (orderChangeEndpoint db req).1.snTable,
             r.diecutId = i → r.diecutSn = s →
               r.probDesc = some p ∧ r.status = some "E") := by
  constructor
  · intro hE hpd
    cases hids : (!(jsTruthy req.diecutId) || !(jsTruthy req.diecutSN)
        || !(jsTruthy req.modifyType)) with
    | true =>
      have hred : orderChangeEndpoint db req
          = (db, HttpOutcome.badRequest
              "Missing required parameters: diecutId, diecutSN, or modifyType") := by
        unfold orderChangeEndpoint
        rw [if_pos hids]
      rw [hred]
      exact ⟨rfl, _, rfl⟩
    | false =>
      have hred : orderChangeEndpoint db req
          = (db, HttpOutcome.badRequest
              "Problem description is required for repair (E) type") := by
        unfold orderChangeEndpoint
        rw [if_neg (by simp [hids]), if_pos (by simp [hE, hpd])]
      rw [hred]
      exact ⟨rfl, _, rfl⟩
  · intro hid hi hsn hs hE hp hpne
    have hti : jsTruthy req.diecutId = true := by
      rw [hid]; exact (jsTruthy_some_iff i).mpr hi
    have hts : jsTruthy req.diecutSN = true := by
      rw [hsn]; exact (jsTruthy_some_iff s).mpr hs
    have htE : jsTruthy req.modifyType = true := by
      rw [hE]; exact (jsTruthy_some_iff "E").mpr (by decide)
    have htp : jsTruthy req.problemDesc = true := by
      rw [hp]; exact (jsTruthy_some_iff p).mpr hpne
    have hred : orderChangeEndpoint db req
        = ((orderChange db i s "E" (some p)).1,
            HttpOutcome.ok "Diecut saved successfully") := by
      unfold orderChangeEndpoint
      rw [if_neg (by simp [hti, hts, htE]), if_neg (by simp [htp]), hid, hsn, hE, hp]
      rfl
    rw [hred]
    constructor
    · rfl
    · intro r hr
      simp only [orderChange, if_neg (show ¬("E" : String) = "B" by decide)] at hr
      rw [List.mem_map] at hr
      obtain ⟨r0, hr0, hfr⟩ := hr
      intro hrid hrsn
      by_cases hc : r0.diecutId = i ∧ r0.diecutSn = s
      · rw [← hfr, if_pos hc]
        constructor
        · show (if jsTruthy (some p) then some p else none) = some p
          rw [if_pos ((jsTruthy_some_iff p).mpr hpne)]
        · rfl
      · rw [← hfr, if_neg hc] at hrid hrsn
        exact absurd ⟨hrid, hrsn⟩ hc

/-- Concrete state of the repair-validation property: one registered serial
of diecut D1. -/
def c7Db : DB :=
  { snTable := [
      { diecutSn := "D1-0001", diecutId := "D1", diecutType := some "DC",
        status := some "N", tlStatus := some "GOOD" } ] }

/-- Repair request without a problem description. -/
def c7ReqNoDesc : OrderChangeRequest :=
  { diecutId := some "D1", diecutSN := some "D1-0001", modifyType := some "E" }

/-- Repair request with a problem description. -/
def c7ReqGood : OrderChangeRequest :=
  { diecutId := some "D1", diecutSN := some "D1-0001", modifyType := some "E",
    problemDesc := some "blade cracked" }

/-- C7 witness: at the concrete state, the description-less repair request
answers 400 with the state untouched, and the request with a description
answers 200 and the description is persisted on the SN row. -/
theorem c7_orderChange_repair_validation_witness :
    ((orderChangeEndpoint c7Db c7ReqNoDesc).1 = c7Db
      ∧ ∃ msg, (orderChangeEndpoint c7Db c7ReqNoDesc).2 = HttpOutcome.badRequest msg)
  ∧ (orderChangeEndpoint c7Db c7ReqGood).2 = HttpOutcome.ok "Diecut saved successfully"
  ∧ (orderChangeEndpoint c7Db c7ReqGood).1.snTable.map
      (fun (r : SNRow) => (r.probDesc, r.status))
        = [(some "blade cracked", some "E")] := by
  refine ⟨?_, ?_, ?_⟩
  · exact (c7_orderChange_repair_validation c7Db c7ReqNoDesc "D1" "D1-0001" "x").1 rfl rfl
  · exact ((c7_orderChange_repair_validation c7Db c7ReqGood "D1" "D1-0001"
      "blade cracked").2 rfl (by decide) rfl (by decide) rfl rfl (by decide)).1
  · decide

/-! ### Step lemmas for batch registration -/

theorem saveDiecutSNStep_missing (diecutId : String) (dcType status : Option String)
    (orgId empId : String) (now : DateVal) (acc : DB × SaveResult) (e : SNEntry)
    (hfalsy : jsTruthy e.DIECUT_SN = false) :
    saveDiecutSNStep diecutId dcType status orgId empId now acc e = acc := by
  unfold saveDiecutSNStep
  rw [hfalsy]
  rfl

theorem saveDiecutSNStep_skip (diecutId : String) (dcType status : Option String)
    (orgId empId : String) (now : DateVal) (acc : DB × SaveResult) (sn : String)
    (hne : sn ≠ "")
    (hex : acc.1.snTable.any (fun (r : SNRow) => r.diecutSn = sn) = true) :
    saveDiecutSNStep diecutId dcType status orgId empId now acc ⟨some sn⟩
      = (acc.1, { acc.2 with skippedCount := acc.2.skippedCount + 1 }) := by
  unfold saveDiecutSNStep
  rw [show jsTruthy (SNEntry.mk (some sn)).DIECUT_SN = true
    from (jsTruthy_some_iff sn).mpr hne]
  simp only [Bool.not_true, Bool.false_eq_true, if_false]
  rw [show ((SNEntry.mk (some sn)).DIECUT_SN.getD "") = sn from rfl]
  rw [if_pos hex]

theorem saveDiecutSNStep_insert (diecutId : String) (dcType status : Option String)
    (orgId empId : String) (now : DateVal) (acc : DB × SaveResult) (sn : String)
    (hne : sn ≠ "")
    (hnew : acc.1.snTable.any (fun (r : SNRow) => r.diecutSn = sn) = false) :
    saveDiecutSNStep diecutId dcType status orgId empId now acc ⟨some sn⟩
      = ({ acc.1 with
            snTable := acc.1.snTable
              ++ [newLedgerRow sn diecutId dcType status orgId empId now]
            modifyTable := acc.1.modifyTable ++ [newModifyRow sn status orgId empId now] },
          { acc.2 with
              savedCount := acc.2.savedCount + 1
              modifyCount := acc.2.modifyCount + 1 }) := by
  unfold saveDiecutSNStep
  rw [show jsTruthy (SNEntry.mk (some sn)).DIECUT_SN = true
    from (jsTruthy_some_iff sn).mpr hne]
  simp only [Bool.not_true, Bool.false_eq_true, if_false]
  rw [show ((SNEntry.mk (some sn)).DIECUT_SN.getD "") = sn from rfl]
  rw [if_neg (by rw [hnew]; exact Bool.false_ne_true)]

/-- C6: registering a batch of one new serial s1 and one already-registered
serial s2 inserts the s1 ledger row with its paired modification row and
skips s2 (savedCount 1, modifyCount 1, skippedCount 1); re-running the
identical batch skips both (savedCount 0, modifyCount 0, skippedCount 2)
and leaves the state — ledger and modification rows — unchanged. -/
theorem c6_saveDiecutSNList_idempotent_by_skip (db : DB) (diecutId s1 s2 : String)
    (dcType status : Option String) (orgId empId : String) (now now2 : DateVal)
    (h1 : s1 ≠ "") (h2 : s2 ≠ "")
    (hnew : ∀ r ∈ db.snTable, r.diecutSn ≠ s1)
    (hex : ∃ r ∈ db.snTable, r.diecutSn = s2) :
    (saveDiecutSNList db diecutId [SNEntry.mk (some s1), SNEntry.mk (some s2)]
        dcType status orgId empId now).2
      = { savedCount := 1, modifyCount := 1, skippedCount := 1 }
  ∧ (saveDiecutSNList db diecutId [SNEntry.mk (some s1), SNEntry.mk (some s2)]
        dcType status orgId empId now).1
      = { db with
          snTable := db.snTable
            ++ [newLedgerRow s1 diecutId dcType status orgId empId now]
          modifyTable := db.modifyTable ++ [newModifyRow s1 status orgId empId now] }
  ∧ (saveDiecutSNList
        (saveDiecutSNList db diecutId [SNEntry.mk (some s1), SNEntry.mk (some s2)]
          dcType status orgId empId now).1
        diecutId [SNEntry.mk (some s1), SNEntry.mk (some s2)]
        dcType status orgId empId now2).2
      = { savedCount := 0, modifyCount := 0, skippedCount := 2 }
  ∧ (saveDiecutSNList
        (saveDiecutSNList db diecutId [SNEntry.mk (some s1), SNEntry.mk (some s2)]
          dcType status orgId empId now).1
        diecutId [SNEntry.mk (some s1), SNEntry.mk (some s2)]
        dcType status orgId empId now2).1
      = (saveDiecutSNList db diecutId [SNEntry.mk (some s1), SNEntry.mk (some s2)]
          dcType status orgId empId now).1 := by
  obtain ⟨rex, hrexmem, hrexeq⟩ := hex
  have hany1 : (db.snTable.any (fun (r : SNRow) => r.diecutSn = s1)) = false := by
    rw [List.any_eq_false]
    intro r hr
    simpa using hnew r hr
  have hanyA1 : ((db.snTable
      ++ [newLedgerRow s1 diecutId dcType status orgId empId now]).any
        (fun (r : SNRow) => r.diecutSn = s1)) = true := by
    rw [List.any_append, hany1]
    simp [newLedgerRow]
  have hanyA2 : ((db.snTable
      ++ [newLedgerRow s1 diecutId dcType status orgId empId now]).any
        (fun (r : SNRow) => r.diecutSn = s2)) = true := by
    rw [List.any_append]
    have : (db.snTable.any (fun (r : SNRow) => r.diecutSn = s2)) = true :=
      List.any_eq_true.mpr ⟨rex, hrexmem, by simpa using hrexeq⟩
    rw [this, Bool.true_or]
  have hrun1 : saveDiecutSNList db diecutId
        [SNEntry.mk (some s1), SNEntry.mk (some s2)] dcType status orgId empId now
      = ({ db with
            snTable := db.snTable
              ++ [newLedgerRow s1 diecutId dcType status orgId empId now]
            modifyTable := db.modifyTable ++ [newModifyRow s1 status orgId empId now] },
          { savedCount := 1, modifyCount := 1, skippedCount := 1 }) := by
    unfold saveDiecutSNList
    rw [List.foldl_cons,
      saveDiecutSNStep_insert diecutId dcType status orgId empId now (db, {}) s1 h1 hany1,
      List.foldl_cons,
      saveDiecutSNStep_skip diecutId dcType status orgId empId now _ s2 h2 hanyA2,
      List.foldl_nil]
  have hrun2 : saveDiecutSNList
        ({ db with
            snTable := db.snTable
              ++ [newLedgerRow s1 diecutId dcType status orgId empId now]
            modifyTable := db.modifyTable
              ++ [newModifyRow s1 status orgId empId now] } : DB)
        diecutId [SNEntry.mk (some s1), SNEntry.mk (some s2)]
        dcType status orgId empId now2
      = ({ db with
            snTable := db.snTable
              ++ [newLedgerRow s1 diecutId dcType status orgId empId now]
            modifyTable := db.modifyTable ++ [newModifyRow s1 status orgId empId now] },
          { savedCount := 0, modifyCount := 0, skippedCount := 2 }) := by
    unfold saveDiecutSNList
    rw [List.foldl_cons,
      saveDiecutSNStep_skip diecutId dcType status orgId empId now2 _ s1 h1 hanyA1,
      List.foldl_cons,
      saveDiecutSNStep_skip diecutId dcType status orgId empId now2 _ s2 h2 hanyA2,
      List.foldl_nil]
  rw [hrun1]
  rw [show (({ db with
        snTable := db.snTable
          ++ [newLedgerRow s1 diecutId dcType status orgId empId now]
        modifyTable := db.modifyTable
          ++ [newModifyRow s1 status orgId empId now] } : DB),
      ({ savedCount := 1, modifyCount := 1, skippedCount := 1 } : SaveResult)).1
    = ({ db with
        snTable := db.snTable
          ++ [newLedgerRow s1 diecutId dcType status orgId empId now]
        modifyTable := db.modifyTable
          ++ [newModifyRow s1 status orgId empId now] } : DB) from rfl]
  rw [hrun2]
  exact ⟨rfl, rfl, rfl, rfl⟩

/-- Concrete state of the batch-registration property: serial D1-0002 is
already registered, D1-0001 is new. -/
def c6Db : DB :=
  { snTable := [
      { diecutSn := "D1-0002", diecutId := "D1", diecutType := some "DC",
        status := some "N", tlStatus := some "GOOD" } ] }

/-- C6 witness: the counts of the two runs at the concrete state c6Db. -/
theorem c6_saveDiecutSNList_idempotent_by_skip_witness :
    (saveDiecutSNList c6Db "D1" [SNEntry.mk (some "D1-0001"), SNEntry.mk (some "D1-0002")]
        (some "DC") (some "N") "ORG" "EMP" 20240101).2
      = { savedCount := 1, modifyCount := 1, skippedCount := 1 }
  ∧ (saveDiecutSNList
        (saveDiecutSNList c6Db "D1"
          [SNEntry.mk (some "D1-0001"), SNEntry.mk (some "D1-0002")]
          (some "DC") (some "N") "ORG" "EMP" 20240101).1
        "D1" [SNEntry.mk (some "D1-0001"), SNEntry.mk (some "D1-0002")]
        (some "DC") (some "N") "ORG" "EMP" 20240202).2
      = { savedCount := 0, modifyCount := 0, skippedCount := 2 } := by
  have h := c6_saveDiecutSNList_idempotent_by_skip c6Db "D1" "D1-0001" "D1-0002"
    (some "DC") (some "N") "ORG" "EMP" 20240101 20240202
    (by decide) (by decide) (by decide)
    ⟨{ diecutSn := "D1-0002", diecutId := "D1", diecutType := some "DC",
        status := some "N", tlStatus := some "GOOD" }, by decide, by decide⟩
  exact ⟨h.1, h.2.2.1⟩

theorem saveLoop_saved_eq_modify (diecutId : String) (dcType status : Option String)
    (orgId empId : String) (now : DateVal) :
    ∀ (l : List SNEntry) (acc : DB × SaveResult),
      acc.2.savedCount = acc.2.modifyCount →
      (l.foldl (saveDiecutSNStep diecutId dcType status orgId empId now) acc).2.savedCount
        = (l.foldl (saveDiecutSNStep diecutId dcType status orgId empId now)
            acc).2.modifyCount := by
  intro l
  induction l with
  | nil => intro acc h; exact h
  | cons e l ih =>
    intro acc h
    rw [List.foldl_cons]
    apply ih
    unfold saveDiecutSNStep
    dsimp only
    split
    · exact h
    · split
      · exact h
      · show acc.2.savedCount + 1 = acc.2.modifyCount + 1
        omega

theorem saveLoop_counts_le (diecutId : String) (dcType status : Option String)
    (orgId empId : String) (now : DateVal) :
    ∀ (l : List SNEntry) (acc : DB × SaveResult),
      (l.foldl (saveDiecutSNStep diecutId dcType status orgId empId now) acc).2.savedCount
        + (l.foldl (saveDiecutSNStep diecutId dcType status orgId empId now)
            acc).2.skippedCount
        ≤ acc.2.savedCount + acc.2.skippedCount + l.length := by
  have hstep : ∀ (acc : DB × SaveResult) (e : SNEntry),
      (saveDiecutSNStep diecutId dcType status orgId empId now acc e).2.savedCount
        + (saveDiecutSNStep diecutId dcType status orgId empId now acc e).2.skippedCount
        ≤ acc.2.savedCount + acc.2.skippedCount + 1 := by
    intro acc e
    unfold saveDiecutSNStep
    dsimp only
    split
    · omega
    · split
      · show acc.2.savedCount + (acc.2.skippedCount + 1) ≤ _
        omega
      · show acc.2.savedCount + 1 + acc.2.skippedCount ≤ _
        omega
  intro l
  induction l with
  | nil =>
    intro acc
    simp only [List.foldl_nil, List.length_nil]
    omega
  | cons e l ih =>
    intro acc
    rw [List.foldl_cons]
    have h1 := ih (saveDiecutSNStep diecutId dcType status orgId empId now acc e)
    have h2 := hstep acc e
    simp only [List.length_cons]
    omega

/-- C9: on every completed batch registration savedCount equals modifyCount;
savedCount + skippedCount never exceeds the input length; an entry with a
missing (falsy) DIECUT_SN is skipped without incrementing any of the three
counters, so prepending such an entry leaves the whole result unchanged and
makes savedCount + skippedCount strictly less than the input length. -/
theorem c9_saveDiecutSNList_count_invariants (db : DB) (diecutId : String)
    (snList : List SNEntry) (dcType status : Option String) (orgId empId : String)
    (now : DateVal) (e0 : SNEntry) :
    (saveDiecutSNList db diecutId snList dcType status orgId empId now).2.savedCount
      = (saveDiecutSNList db diecutId snList dcType status orgId empId now).2.modifyCount
  ∧ (saveDiecutSNList db diecutId snList dcType status orgId empId now).2.savedCount
      + (saveDiecutSNList db diecutId snList dcType status orgId empId now).2.skippedCount
      ≤ snList.length
  ∧ (jsTruthy e0.DIECUT_SN = false →
      saveDiecutSNList db diecutId (e0 :: snList) dcType status orgId empId now
        = saveDiecutSNList db diecutId snList dcType status orgId empId now)
  ∧ (jsTruthy e0.DIECUT_SN = false →
      (saveDiecutSNList db diecutId (e0 :: snList) dcType status orgId empId
          now).2.savedCount
        + (saveDiecutSNList db diecutId (e0 :: snList) dcType status orgId empId
            now).2.skippedCount
        < (e0 :: snList).length) := by
  have hmain1 :=
    saveLoop_saved_eq_modify diecutId dcType status orgId empId now snList (db, {}) rfl
  have hmain2 := saveLoop_counts_le diecutId dcType status orgId empId now snList (db, {})
  have hmiss : jsTruthy e0.DIECUT_SN = false →
      saveDiecutSNList db diecutId (e0 :: snList) dcType status orgId empId now
        = saveDiecutSNList db diecutId snList dcType status orgId empId now := by
    intro hfalsy
    unfold saveDiecutSNList
    rw [List.foldl_cons,
      saveDiecutSNStep_missing diecutId dcType status orgId empId now (db, {}) e0 hfalsy]
  refine ⟨hmain1, ?_, hmiss, ?_⟩
  · have : ((SaveResult.mk 0 0 0 : SaveResult)).savedCount
        + (SaveResult.mk 0 0 0 : SaveResult).skippedCount = 0 := rfl
    calc (saveDiecutSNList db diecutId snList dcType status orgId empId now).2.savedCount
          + (saveDiecutSNList db diecutId snList dcType status orgId empId
              now).2.skippedCount
        ≤ ((db, ({} : SaveResult)) : DB × SaveResult).2.savedCount
            + ((db, ({} : SaveResult)) : DB × SaveResult).2.skippedCount
            + snList.length := hmain2
      _ = snList.length := by show 0 + 0 + snList.length = snList.length; omega
  · intro hfalsy
    rw [hmiss hfalsy]
    have hle : (saveDiecutSNList db diecutId snList dcType status orgId empId
          now).2.savedCount
        + (saveDiecutSNList db diecutId snList dcType status orgId empId
            now).2.skippedCount
        ≤ snList.length := by
      calc _ ≤ ((db, ({} : SaveResult)) : DB × SaveResult).2.savedCount
            + ((db, ({} : SaveResult)) : DB × SaveResult).2.skippedCount
            + snList.length := hmain2
        _ = snList.length := by show 0 + 0 + snList.length = snList.length; omega
    simp only [List.length_cons]
    omega

/-- C9 witness: a one-element batch whose entry has no DIECUT_SN produces
savedCount + skippedCount = 0, strictly below the list length 1. -/
theorem c9_saveDiecutSNList_count_invariants_witness :
    (saveDiecutSNList c6Db "D1" [SNEntry.mk none] (some "DC") (some "N") "ORG" "EMP"
        1).2.savedCount
      + (saveDiecutSNList c6Db "D1" [SNEntry.mk none] (some "DC") (some "N") "ORG" "EMP"
          1).2.skippedCount
      < ([SNEntry.mk none] : List SNEntry).length :=
  (c9_saveDiecutSNList_count_invariants c6Db "D1" [] (some "DC") (some "N") "ORG" "EMP"
    1 (SNEntry.mk none)).2.2.2 rfl

/-- C8 witness: the two-call counter relation instantiated at the concrete
state c7Db (whose serial starts with a NULL counter). -/
theorem c8_orderChange_blade_counter_witness :
    List.Forall₂ (fun (r r'' : SNRow) =>
      r.diecutId = "D1" ∧ r.diecutSn = "D1-0001" →
        r''.bladeChangeCount = some (r.bladeChangeCount.getD 0 + 2))
      c7Db.snTable
      (orderChange (orderChange c7Db "D1" "D1-0001" "B" none).1
        "D1" "D1-0001" "B" none).1.snTable :=
  (c8_orderChange_blade_counter c7Db "D1" "D1-0001" none).2

/-- C10 witness: cancelOrder reports success at a concrete state with no
matching modification row at all. -/
theorem c10_cancelOrder_frame_witness :
    (cancelOrder c6Db "D1-0001" "ORG" "EMP" 20240101).2 = true :=
  (c10_cancelOrder_frame c6Db "D1-0001" "ORG" "EMP" 20240101).1

/-- C3 witness: the concrete cancelTypeChange call on serial D1-0001 of the
state c2Db (which has a pending request) throws the statement error. -/
theorem c3_cancelTypeChange_always_fails_witness :
    cancelTypeChange c2Db "D1-0001"
      = Except.error "ORA-01747: invalid user.table.column specification" :=
  c3_cancelTypeChange_always_fails c2Db "D1-0001"

end DiecutModel
